import Mathlib

/-!
Shallow embedding of the xk6-s3 extension (src/s3.go) and proofs about its
client-lifecycle and transfer-operation contract.

The Go module is a thin wrapper over the AWS SDK: `Create` assembles a client
configuration, `RandomData` draws random bytes, `UploadFile` /
`UploadLargeFile` / `UploadData` issue PutObject or multipart uploads and
`DownloadDataRange` issues a ranged GetObject.  The external collaborators
(os.Open, crypto/rand.Read, the SDK's PutObject / GetObject / multipart
uploader, io.ReadAll) are modelled as explicit outcome parameters, and each
embedded operation returns — besides the Go function's return values — the
list of network requests it issued, so that claims about request contents and
about which calls happen can be stated.  Go error values are `Option GoError`
(`none` = nil) and Go runtime panics are the `Except.error` side of
`Except GoPanic`.
-/

namespace S3

/-- A non-nil Go error value, carrying its message. -/
structure GoError where
  msg : String
deriving DecidableEq, Repr

/-- A Go runtime panic (for example from `make` with a negative length). -/
structure GoPanic where
  msg : String
deriving DecidableEq, Repr

/-- An open file handle as returned by os.Open. -/
structure FileHandle where
  name : String
deriving DecidableEq, Repr

/-- The response body stream of a GetObject result, read by io.ReadAll. -/
structure BodyStream where
  id : Nat
deriving DecidableEq, Repr

/-- The provider built by credentials.NewStaticCredentialsProvider: the Go
    code passes the two supplied keys and `""` for the session token
    (src/s3.go line 66). -/
structure StaticCredentials where
  accessKeyID : String
  secretAccessKey : String
  sessionToken : String
deriving DecidableEq, Repr

/-- An aws.Endpoint as produced by the custom resolver: only the URL field is
    set (src/s3.go lines 67-71). -/
structure Endpoint where
  url : String
deriving DecidableEq, Repr

/-- The s3.Client handle as configured by Create: the resolved credentials and
    region from the loaded config, the endpoint resolver installed with
    config.WithEndpointResolverWithOptions (a function of service and region),
    and the UsePathStyle option set by the s3.NewFromConfig options function. -/
structure Client where
  credentials : StaticCredentials
  region : String
  resolveEndpoint : String → String → Endpoint
  usePathStyle : Bool

/-- Embeds Create (src/s3.go lines 65-83).  `loadResult` is the error outcome
    of config.LoadDefaultConfig (none = nil).  The Go code builds a static
    credentials provider from (accessKey, secretKey, "") and a resolver that
    ignores its service and region arguments and returns an Endpoint holding
    exactly the supplied URL; on a load error it returns (nil, err), otherwise
    it returns s3.NewFromConfig(cfg, o => o.UsePathStyle = true) and nil. -/
def Create (accessKey secretKey endpoint region : String)
    (loadResult : Option GoError) : Option Client × Option GoError :=
  let creds := StaticCredentials.mk accessKey secretKey ""
  let customResolver : String → String → Endpoint :=
    fun _service _region => Endpoint.mk endpoint
  match loadResult with
  | some err => (none, some err)
  | none =>
      (some { credentials := creds
              region := region
              resolveEndpoint := customResolver
              usePathStyle := true }, none)

/-- What a Read call writes into an existing Go byte slice `buf` when the
    source produced the byte sequence `src`: at most `buf.length` bytes are
    written from the front, and the slice's length cannot change. -/
def readInto (buf src : List Nat) : List Nat :=
  src.take buf.length ++ buf.drop src.length

/-- Embeds RandomData (src/s3.go lines 54-62).  `size` is the int64 argument;
    `entropy` is the outcome of crypto/rand.Read on the fresh buffer: on
    `.ok src` the bytes the entropy source wrote, on `.error e` the Read
    error.  `make([]byte, size)` with a negative size is a Go runtime panic
    (makeslice: len out of range), modelled as the `.error` side.  On a Read
    error the Go code logs and returns nil (modelled `.ok none`); otherwise it
    returns the buffer. -/
def RandomData (size : Int) (entropy : Except GoError (List Nat)) :
    Except GoPanic (Option (List Nat)) :=
  if size < 0 then
    .error (GoPanic.mk "runtime error: makeslice: len out of range")
  else
    let buf := List.replicate size.toNat 0
    match entropy with
    | .error _ => .ok none
    | .ok src => .ok (some (readInto buf src))

/-- The Body field of a PutObjectInput as built in src/s3.go: the opened file
    (UploadFile, UploadLargeFile) or bytes.NewReader over the byte slice
    (UploadData). -/
inductive Body where
  | file (h : FileHandle)
  | bytes (data : List Nat)
deriving DecidableEq, Repr

/-- The s3.PutObjectInput built by the upload operations. -/
structure PutObjectInput where
  bucket : String
  key : String
  body : Body
deriving DecidableEq, Repr

/-- The s3.GetObjectInput built by DownloadDataRange, with its Range header. -/
structure GetObjectInput where
  bucket : String
  key : String
  range : String
deriving DecidableEq, Repr

/-- A network request issued against the store.  Upload requests are tagged
    with whether the unsigned-payload signing override
    (v4.SwapComputePayloadSHA256ForUnsignedPayloadMiddleware) is attached to
    the request via s3.WithAPIOptions. -/
inductive S3Call where
  | putObject (input : PutObjectInput) (unsigned : Bool)
  | uploadPart (bucket key : String) (partNumber : Nat) (unsigned : Bool)
  | getObject (input : GetObjectInput)
deriving DecidableEq, Repr

/-- Whether a request carries the unsigned-payload signing override. -/
def S3Call.unsignedPayload : S3Call → Bool
  | .putObject _ u => u
  | .uploadPart _ _ _ u => u
  | .getObject _ => false

/-- What an upload operation did: the error value the Go function returns
    (none = nil) and the network requests it issued, in order. -/
structure UploadTrace where
  returned : Option GoError
  calls : List S3Call
deriving DecidableEq, Repr

/-- Embeds UploadFile (src/s3.go lines 86-105).  `openResult` is the outcome
    of os.Open(fileName); `putResult` the error outcome of client.PutObject on
    the opened file.  Control flow of the source: the outer `err` is the
    os.Open error; inside the else branch `_, err := client.PutObject(...)`
    declares a NEW err that shadows the outer one and is only logged; the
    final `return err` returns the OUTER err, which is nil whenever os.Open
    succeeded.  The PutObject request carries Bucket, Key, the file body and
    the unsigned-payload API option.  The client is returned unchanged: the
    source never writes through the client pointer. -/
def UploadFile (client : Client) (bucketName objectKey fileName : String)
    (openResult : Except GoError FileHandle)
    (putResult : FileHandle → Option GoError) : UploadTrace × Client :=
  match openResult with
  | .error err => ({ returned := some err, calls := [] }, client)
  | .ok file =>
      let input : PutObjectInput := ⟨bucketName, objectKey, Body.file file⟩
      let _innerErr := putResult file
      ({ returned := none, calls := [S3Call.putObject input true] }, client)

/-- The part requests the SDK's manager.Uploader issues for one Upload call:
    the body is split into `numParts` parts and every part request is sent
    through the uploader's ClientOptions — here carrying the unsigned-payload
    API option appended in src/s3.go lines 117-119. -/
def uploaderPartCalls (bucket key : String) (numParts : Nat)
    (unsigned : Bool) : List S3Call :=
  (List.range numParts).map fun i => S3Call.uploadPart bucket key (i + 1) unsigned

/-- Embeds UploadLargeFile (src/s3.go lines 108-131).  `openResult` is the
    outcome of os.Open(fileName); `numParts` how many parts the manager splits
    the file into (ceil of file size over partSize); `uploadResult` the error
    outcome of uploader.Upload.  The uploader is configured with PartSize,
    Concurrency and ClientOptions extended by the unsigned-payload API option,
    so every part request carries it.  Same shadowing as UploadFile: inside
    the else branch `_, err := uploader.Upload(...)` shadows the outer err, so
    the returned err is nil whenever os.Open succeeded. -/
def UploadLargeFile (client : Client) (bucketName objectKey fileName : String)
    (partSize : Int) (concurrency : Int)
    (openResult : Except GoError FileHandle) (numParts : Nat)
    (uploadResult : FileHandle → Option GoError) : UploadTrace × Client :=
  match openResult with
  | .error err => ({ returned := some err, calls := [] }, client)
  | .ok file =>
      let _innerErr := uploadResult file
      ({ returned := none
         calls := uploaderPartCalls bucketName objectKey numParts true }, client)

/-- Embeds UploadData (src/s3.go lines 134-147).  `putResult` is the error
    outcome of client.PutObject on bytes.NewReader(data).  No shadowing here:
    the PutObject error is declared in function scope and returned. -/
def UploadData (client : Client) (bucketName objectKey : String)
    (data : List Nat) (putResult : Option GoError) : UploadTrace × Client :=
  let input : PutObjectInput := ⟨bucketName, objectKey, Body.bytes data⟩
  ({ returned := putResult, calls := [S3Call.putObject input true] }, client)

/-- The Range header DownloadDataRange builds:
    fmt.Sprintf("bytes=%d-%d", begin, end) — decimal renderings of the two
    int arguments around the literal punctuation. -/
def rangeHeader (rangeBegin rangeEnd : Int) : String :=
  "bytes=" ++ toString rangeBegin ++ "-" ++ toString rangeEnd

/-- What DownloadDataRange did: the ([]byte, error) pair the Go function
    returns (none = nil for either component) and the requests it issued. -/
structure DownloadTrace where
  buf : Option (List Nat)
  err : Option GoError
  calls : List S3Call
deriving DecidableEq, Repr

/-- Embeds DownloadDataRange (src/s3.go lines 150-167).  `getResult` is the
    outcome of client.GetObject on the ranged input (on success, the response
    body stream); `readAllResult` the outcome of io.ReadAll on that stream.
    The source returns (nil, err) on a GetObject error, (nil, err) on a
    ReadAll error, and (bytes, nil) on success.  The client is returned
    unchanged: the source never writes through the client pointer. -/
def DownloadDataRange (client : Client) (bucketName objectKey : String)
    (rangeBegin rangeEnd : Int)
    (getResult : Except GoError BodyStream)
    (readAllResult : BodyStream → Except GoError (List Nat)) :
    DownloadTrace × Client :=
  let input : GetObjectInput :=
    ⟨bucketName, objectKey, rangeHeader rangeBegin rangeEnd⟩
  match getResult with
  | .error err =>
      ({ buf := none, err := some err, calls := [S3Call.getObject input] }, client)
  | .ok body =>
      match readAllResult body with
      | .error err =>
          ({ buf := none, err := some err, calls := [S3Call.getObject input] }, client)
      | .ok bs =>
          ({ buf := some bs, err := none, calls := [S3Call.getObject input] }, client)

/-- Standard HTTP inclusive byte-range semantics: the slice of an object that
    the range pair (b, e) with b ≤ e denotes is the bytes at offsets b..e
    inclusive. -/
def inclusiveRangeSlice (b e : Nat) (obj : List Nat) : List Nat :=
  (obj.drop b).take (e + 1 - b)

/-- A Read into a Go slice leaves the slice's length unchanged. -/
theorem readInto_length (buf src : List Nat) :
    (readInto buf src).length = buf.length := by
  simp only [readInto, List.length_append, List.length_take, List.length_drop]
  omega

/-- A concrete client handle, as Create builds one on a successful load. -/
def createdClient : Client :=
  { credentials := StaticCredentials.mk "AKIA" "SECRET" ""
    region := "eu-west-1"
    resolveEndpoint := fun _service _region => Endpoint.mk "http://minio.local:9000"
    usePathStyle := true }

/-- Claim C1: the spec says a non-nil transfer error is always returned to the
caller, but the code does not: with a successfully opened file and a failing
PutObject (resp. uploader.Upload), UploadFile and UploadLargeFile return nil —
the inner `_, err :=` declaration shadows the outer err, so the transfer error
is only logged.  UploadData, which has no shadowing, does return it. -/
theorem upload_transfer_error_swallowed :
    (UploadFile createdClient "bucket" "key" "file.bin"
      (.ok (FileHandle.mk "file.bin"))
      (fun _ => some (GoError.mk "connection refused"))).1.returned = none ∧
    (UploadLargeFile createdClient "bucket" "key" "big.bin" 5242880 4
      (.ok (FileHandle.mk "big.bin")) 3
      (fun _ => some (GoError.mk "connection refused"))).1.returned = none ∧
    (UploadData createdClient "bucket" "key" [1, 2, 3]
      (some (GoError.mk "connection refused"))).1.returned =
        some (GoError.mk "connection refused") :=
  ⟨rfl, rfl, rfl⟩

/-- Claim C2: when os.Open fails, UploadFile returns that non-nil error and
issues no network request at all — PutObject is never invoked. -/
theorem uploadFile_open_failure_no_network (client : Client)
    (bucketName objectKey fileName : String) (e : GoError)
    (putResult : FileHandle → Option GoError) :
    (UploadFile client bucketName objectKey fileName
      (.error e) putResult).1.returned = some e ∧
    (UploadFile client bucketName objectKey fileName
      (.error e) putResult).1.calls = [] :=
  ⟨rfl, rfl⟩

/-- Claim C3: for size ≥ 0, every buffer RandomData returns has exactly `size`
bytes, and on an entropy-source failure it returns nil — never a partially
filled buffer. -/
theorem randomData_exact_size_or_nil (size : Int)
    (entropy : Except GoError (List Nat)) (h : 0 ≤ size) :
    (∀ b, RandomData size entropy = .ok (some b) → b.length = size.toNat) ∧
    (∀ e, entropy = .error e → RandomData size entropy = .ok none) := by
  constructor
  · intro b hb
    rw [RandomData, if_neg (by omega)] at hb
    cases entropy with
    | error e => simp at hb
    | ok src =>
      simp only [Except.ok.injEq, Option.some.injEq] at hb
      rw [← hb, readInto_length, List.length_replicate]
  · intro e he
    subst he
    rw [RandomData, if_neg (by omega)]

/-- Witness for C3 at size 2 with a successful entropy read of two bytes. -/
theorem randomData_exact_size_or_nil_witness :
    (0 : Int) ≤ 2 ∧ List.length [7, 9] = (2 : Int).toNat :=
  ⟨by decide, (randomData_exact_size_or_nil 2 (.ok [7, 9]) (by decide)).1 [7, 9] rfl⟩

/-- Claim C4: every client handle Create returns holds a static-credential
provider built from the two supplied keys with an empty session token, an
endpoint resolver that yields the supplied URL for every service and region,
and path-style addressing enabled. -/
theorem create_static_creds_endpoint_pathstyle
    (accessKey secretKey endpoint region : String)
    (loadResult : Option GoError) (c : Client)
    (h : (Create accessKey secretKey endpoint region loadResult).1 = some c) :
    c.credentials = StaticCredentials.mk accessKey secretKey "" ∧
    (∀ service reg, c.resolveEndpoint service reg = Endpoint.mk endpoint) ∧
    c.usePathStyle = true := by
  cases loadResult with
  | some e => simp [Create] at h
  | none =>
    simp only [Create, Option.some.injEq] at h
    subst h
    exact ⟨rfl, fun _ _ => rfl, rfl⟩

/-- Witness for C4: Create at concrete keys, endpoint and region with a
successful load yields `createdClient`, whose fields are as claimed. -/
theorem create_static_creds_endpoint_pathstyle_witness :
    createdClient.credentials = StaticCredentials.mk "AKIA" "SECRET" "" ∧
    createdClient.resolveEndpoint "s3" "us-east-2" =
      Endpoint.mk "http://minio.local:9000" ∧
    createdClient.usePathStyle = true :=
  have h := create_static_creds_endpoint_pathstyle "AKIA" "SECRET"
    "http://minio.local:9000" "eu-west-1" none createdClient rfl
  ⟨h.1, h.2.1 "s3" "us-east-2", h.2.2⟩

/-- Claim C5: when the configuration load fails, Create returns that non-nil
error and a nil client. -/
theorem create_load_failure_no_handle
    (accessKey secretKey endpoint region : String) (e : GoError) :
    Create accessKey secretKey endpoint region (some e) = (none, some e) :=
  rfl

/-- Claim C6: the single GetObject request DownloadDataRange issues carries
the Range header "bytes=begin-end" (decimal renderings of the two arguments),
and under standard inclusive HTTP range semantics the pair (0, 0) — header
"bytes=0-0" — denotes exactly the first byte of the object. -/
theorem downloadDataRange_inclusive_range_header (client : Client)
    (bucketName objectKey : String) (rangeBegin rangeEnd : Int)
    (getResult : Except GoError BodyStream)
    (readAllResult : BodyStream → Except GoError (List Nat)) :
    (DownloadDataRange client bucketName objectKey rangeBegin rangeEnd
        getResult readAllResult).1.calls =
      [S3Call.getObject (GetObjectInput.mk bucketName objectKey
        ("bytes=" ++ toString rangeBegin ++ "-" ++ toString rangeEnd))] ∧
    rangeHeader 0 0 = "bytes=0-0" ∧
    ∀ obj : List Nat, inclusiveRangeSlice 0 0 obj = obj.take 1 := by
  refine ⟨?_, rfl, fun obj => rfl⟩
  cases getResult with
  | error e => rfl
  | ok body =>
    rw [DownloadDataRange]
    cases readAllResult body <;> rfl

/-- Claim C7: whenever DownloadDataRange fails — GetObject errors, or ReadAll
on the body errors partway — it returns a nil buffer together with that
non-nil error; a buffer is returned only alongside a nil error. -/
theorem downloadDataRange_failure_nil_buffer (client : Client)
    (bucketName objectKey : String) (rangeBegin rangeEnd : Int)
    (getResult : Except GoError BodyStream)
    (readAllResult : BodyStream → Except GoError (List Nat)) :
    (∀ e, getResult = .error e →
      (DownloadDataRange client bucketName objectKey rangeBegin rangeEnd
        getResult readAllResult).1.buf = none ∧
      (DownloadDataRange client bucketName objectKey rangeBegin rangeEnd
        getResult readAllResult).1.err = some e) ∧
    (∀ body e, getResult = .ok body → readAllResult body = .error e →
      (DownloadDataRange client bucketName objectKey rangeBegin rangeEnd
        getResult readAllResult).1.buf = none ∧
      (DownloadDataRange client bucketName objectKey rangeBegin rangeEnd
        getResult readAllResult).1.err = some e) := by
  constructor
  · intro e he
    subst he
    exact ⟨rfl, rfl⟩
  · intro body e hg hr
    subst hg
    rw [DownloadDataRange]
    rw [hr]
    exact ⟨rfl, rfl⟩

/-- Claim C8: every request issued by an upload operation — the single
PutObject of UploadFile and UploadData, and every part request of
UploadLargeFile — carries the unsigned-payload signing override. -/
theorem upload_requests_unsigned_payload (client : Client)
    (bucketName objectKey fileName : String)
    (openResult : Except GoError FileHandle)
    (putResult : FileHandle → Option GoError)
    (partSize concurrency : Int) (numParts : Nat)
    (uploadResult : FileHandle → Option GoError)
    (data : List Nat) (putDataResult : Option GoError) :
    (UploadFile client bucketName objectKey fileName openResult
        putResult).1.calls.all S3Call.unsignedPayload = true ∧
    (UploadLargeFile client bucketName objectKey fileName partSize concurrency
        openResult numParts uploadResult).1.calls.all S3Call.unsignedPayload = true ∧
    (UploadData client bucketName objectKey data
        putDataResult).1.calls.all S3Call.unsignedPayload = true := by
  refine ⟨?_, ?_, rfl⟩
  · cases openResult <;> rfl
  · cases openResult with
    | error e => rfl
    | ok file =>
      simp only [UploadLargeFile, uploaderPartCalls, List.all_eq_true, List.mem_map,
        List.mem_range]
      rintro c ⟨i, -, rfl⟩
      rfl

/-- Claim C9: no operation mutates the client handle — each embedded
operation hands back the handle it was given, exactly as the source never
writes through the client pointer. -/
theorem client_handle_not_mutated (client : Client)
    (bucketName objectKey fileName : String)
    (openResult : Except GoError FileHandle)
    (putResult : FileHandle → Option GoError)
    (partSize concurrency : Int) (numParts : Nat)
    (uploadResult : FileHandle → Option GoError)
    (data : List Nat) (putDataResult : Option GoError)
    (rangeBegin rangeEnd : Int)
    (getResult : Except GoError BodyStream)
    (readAllResult : BodyStream → Except GoError (List Nat)) :
    (UploadFile client bucketName objectKey fileName openResult
        putResult).2 = client ∧
    (UploadLargeFile client bucketName objectKey fileName partSize concurrency
        openResult numParts uploadResult).2 = client ∧
    (UploadData client bucketName objectKey data putDataResult).2 = client ∧
    (DownloadDataRange client bucketName objectKey rangeBegin rangeEnd
        getResult readAllResult).2 = client := by
  refine ⟨?_, ?_, rfl, ?_⟩
  · cases openResult <;> rfl
  · cases openResult <;> rfl
  · cases getResult with
    | error e => rfl
    | ok body =>
      rw [DownloadDataRange]
      cases readAllResult body <;> rfl

/-- Claim C10: RandomData with a negative size panics at the buffer
allocation (makeslice: len out of range) and returns neither nil nor a
buffer. -/
theorem randomData_negative_size_panics (size : Int)
    (entropy : Except GoError (List Nat)) (h : size < 0) :
    RandomData size entropy =
      .error (GoPanic.mk "runtime error: makeslice: len out of range") := by
  rw [RandomData, if_pos h]

/-- Witness for C10 at size -1. -/
theorem randomData_negative_size_panics_witness :
    RandomData (-1) (.ok []) =
      .error (GoPanic.mk "runtime error: makeslice: len out of range") :=
  randomData_negative_size_panics (-1) (.ok []) (by decide)

end S3
